import Mathlib

/-
Verification of the session/roster engine of the MultiplayGame repository.

The embedding below is a shallow translation of the JavaScript sources:
  * `src/src/GameCard.js` — session join (Firebase transaction on the
    `/session-metadata/<id>/users` roster), session deletion, and the UI
    gating predicates `isInSession`, `isFull`, `isGameCreator`.
  * `src/unnamed/part_000` — the tutorial document holding the TicTacToe
    component (`handleButtonClick`, `isMyTurn`, `getOtherUserId`) and the
    description of the `GameDatabase` setter `setGameData`.
Arrays of user ids become `List String`; Firebase documents become
association lists from `String` keys to a small value type; the Firebase
`set` (destructive replace), `remove` (subtree delete) and `transaction`
(atomic read-modify-write) primitives become explicit functions on those
representations.
-/

namespace MultiplayGame

/-- Member/user identifiers (Firebase uids) are opaque strings. -/
abbrev UserId := String

/-- One entry of the `gameData` registry (`src/gameData.js`, as shown in the
tutorial document): per-kind bounds on the roster size. -/
structure GameKindData where
  title : String
  minUsers : Nat
  maxUsers : Nat
deriving DecidableEq

/-- The `chatroom` entry of the `gameData` registry as given in the tutorial
document (part_000, Step 1.1): `minUsers: 1, maxUsers: 10`. -/
def chatroomData : GameKindData :=
  { title := "Chat Room", minUsers := 1, maxUsers := 10 }

/-- Session metadata as consumed by `GameCard` via `this.props.session`:
id, game kind (`type`), creator uid, roster (`users`), creation timestamp. -/
structure Session where
  id : String
  type : String
  creator : UserId
  users : List UserId
  timestamp : Nat
deriving DecidableEq

/-- The `/session-metadata` tree of the remote store, one entry per session
id.  `remove()` on `/session-metadata/<id>` deletes the whole entry. -/
abbrev MetaStore := List (String × Session)

/-- The function `GameCard.joinSession` passes to
`sessionDatabaseRef.transaction` (GameCard.js lines 76–81): given the
current roster, append the caller's uid unless it is already present
(`users.indexOf(uid) < 0`), and return the (possibly updated) roster to be
committed atomically. -/
def joinTransaction (uid : UserId) (users : List UserId) : List UserId :=
  if users.contains uid then users else users ++ [uid]

/-- `GameCard.isInSession` (lines 99–102): `users.indexOf(uid) >= 0`. -/
def isInSession (uid : UserId) (users : List UserId) : Bool :=
  users.contains uid

/-- `GameCard.isFull` (lines 110–114): `users.length >= maxUsers` for the
kind's configured cap. -/
def isFull (users : List UserId) (maxUsers : Nat) : Bool :=
  users.length ≥ maxUsers

/-- The `disabled` condition of the Join button rendered by `GameCard`
(lines 148–154): `this.isInSession() || this.isFull()`. -/
def joinButtonDisabled (uid : UserId) (users : List UserId) (maxUsers : Nat) : Bool :=
  isInSession uid users || isFull users maxUsers

/-- `GameCard.isGameCreator` (lines 94–97): the authenticated uid equals
`session.creator`. -/
def isGameCreator (uid : UserId) (s : Session) : Bool :=
  uid == s.creator

/-- The `disabled` condition of the Delete button rendered by `GameCard`
(lines 190–194): `!this.isGameCreator()`. -/
def deleteButtonDisabled (uid : UserId) (s : Session) : Bool :=
  !(isGameCreator uid s)

/-- `GameCard.deleteSession` (lines 86–92): `remove()` on
`/session-metadata/<id>`.  The body never consults the ambient
authenticated user, so the result ignores the requester argument: the only
creator gating in the source is the UI `disabled` flag on the Delete
button. -/
def deleteSession (_requesterId : UserId) (sessionId : String) (store : MetaStore) : MetaStore :=
  store.filter (fun kv => kv.1 != sessionId)

/-! ### Session state documents and the `GameDatabase` write paths -/

/-- Values stored in a session's state document (`/session/<game-id>/`):
strings (uids), string arrays (the tic-tac-toe `cell_state`), or the
JavaScript `null` that `getOtherUserId` can produce. -/
inductive GValue where
  | str (s : String)
  | strList (xs : List String)
  | nullV
deriving DecidableEq

/-- A session state document: key/value pairs. -/
abbrev GameDoc := List (String × GValue)

/-- Set one key of a document: overwrite it in place if present, append it
otherwise. -/
def docSet (doc : GameDoc) (k : String) (v : GValue) : GameDoc :=
  if doc.any (fun kv => kv.1 == k) then
    doc.map (fun kv => if kv.1 == k then (k, v) else kv)
  else
    doc ++ [(k, v)]

/-- Modelled from the spec: `GameDatabase.setGameData(data)` is not among
the source files (only `GameCard.js` and the tutorial document are); the
tutorial document (part_000 lines 177–180) specifies that the setter
methods "only update the key and value pairs provided in the data
parameter. They do not override the entire object."  So `setGameData` is a
per-key merge of the update into the stored document. -/
def setGameData (doc : GameDoc) (upd : GameDoc) : GameDoc :=
  upd.foldl (fun d kv => docSet d kv.1 kv.2) doc

/-- The Firebase `ref.set(newValue)` primitive used by `handleButtonClick`
via `getSessionDatabaseRef().set(...)`: a destructive replace of the whole
document at the reference, independent of the value currently stored. -/
def firebaseSet (newDoc : GameDoc) (_storedDoc : GameDoc) : GameDoc :=
  newDoc

/-! ### The TicTacToe component (tutorial document, part_000) -/

/-- The ambient identity and roster context of a mounted `TicTacToe`
component: `getMyUserId()`, `getSessionCreatorUserId()`,
`getSessionUserIds()`. -/
structure GameContext where
  myUserId : UserId
  creatorUserId : UserId
  sessionUserIds : List UserId
deriving DecidableEq

/-- The component's local React state: `cellState` (nine cells) and
`currentUser` (which may be the JavaScript `null` after a write of a null
`current_user`). -/
structure TTTLocalState where
  cellState : List String
  currentUser : Option UserId
deriving DecidableEq

/-- `TicTacToe.isMyTurn` (part_000 lines 1076–1078):
`this.getMyUserId() === this.state.currentUser` (strict equality, so a
`null` holder makes it every caller's non-turn). -/
def isMyTurn (ctx : GameContext) (st : TTTLocalState) : Bool :=
  match st.currentUser with
  | some u => ctx.myUserId == u
  | none => false

/-- `TicTacToe.getOtherUserId` (part_000 lines 1080–1089): scan the session
user ids and return the first one different from the caller's; when none
exists the loop falls through, logs an error and returns `null`. -/
def getOtherUserId (ctx : GameContext) : Option UserId :=
  ctx.sessionUserIds.find? (fun u => u != ctx.myUserId)

/-- The document `TicTacToe.handleButtonClick(i)` (part_000 lines
1063–1074) builds and passes to `set`: the clicked cell is overwritten with
`"X"` when the caller is the session creator and `"O"` otherwise, and
`current_user` becomes `getOtherUserId()` (possibly `null`). -/
def handleButtonClick (ctx : GameContext) (st : TTTLocalState) (i : Nat) : GameDoc :=
  let symbol := if ctx.myUserId == ctx.creatorUserId then "X" else "O"
  let cellState := st.cellState.set i symbol
  [("cell_state", GValue.strList cellState),
   ("current_user",
     match getOtherUserId ctx with
     | some u => GValue.str u
     | none => GValue.nullV)]

/-- The commit `handleButtonClick` performs:
`this.getSessionDatabaseRef().set({...})`, i.e. the destructive
`firebaseSet` of the freshly built document over whatever the store holds. -/
def handleButtonClickCommit (ctx : GameContext) (st : TTTLocalState) (i : Nat)
    (storedDoc : GameDoc) : GameDoc :=
  firebaseSet (handleButtonClick ctx st i) storedDoc

/-- Extract the committed `cell_state` array from a session state document. -/
def committedCellState (doc : GameDoc) : Option (List String) :=
  match List.lookup "cell_state" doc with
  | some (GValue.strList xs) => some xs
  | _ => none

/-! ### Helper lemmas -/

/-- One application of the join transaction keeps a duplicate-free roster
duplicate-free. -/
theorem joinTransaction_nodup_step (uid : UserId) (users : List UserId)
    (h : users.Nodup) : (joinTransaction uid users).Nodup := by
  by_cases hm : uid ∈ users
  · simpa [joinTransaction, hm] using h
  · simp [joinTransaction, hm, List.nodup_append, h]

/-- `remove()` really removes: looking up the deleted session id in the
filtered metadata store yields nothing. -/
theorem lookup_filter_not_key (sid : String) (store : MetaStore) :
    List.lookup sid (store.filter (fun kv => kv.1 != sid)) = none := by
  induction store with
  | nil => rfl
  | cons kv tl ih =>
    obtain ⟨k, s⟩ := kv
    by_cases h : k = sid
    · simpa [List.filter_cons, h] using ih
    · have hp : ((k, s).1 != sid) = true := by
        simpa using h
      rw [List.filter_cons, if_pos hp, List.lookup_cons,
        beq_false_of_ne (Ne.symm h)]
      exact ih

/-! ### Claims about the roster transaction (GameCard.joinSession) -/

/-- Claim C4: starting from a duplicate-free roster, any sequence of
applications of the join transaction function (one per committed join, in
any interleaving order) yields a roster that is still duplicate-free. -/
theorem join_sequence_preserves_nodup :
    ∀ (uids : List UserId) (users : List UserId), users.Nodup →
      (uids.foldl (fun acc u => joinTransaction u acc) users).Nodup := by
  intro uids
  induction uids with
  | nil => intro users h; simpa using h
  | cons u tl ih =>
    intro users h
    exact ih _ (joinTransaction_nodup_step u users h)

/-- Witness for C4 at a concrete roster and join sequence. -/
theorem join_sequence_preserves_nodup_witness :
    ((["b", "c", "b"] : List UserId).foldl
      (fun acc u => joinTransaction u acc) ["a", "b"]).Nodup :=
  join_sequence_preserves_nodup ["b", "c", "b"] ["a", "b"] (by decide)

/-- Claim C5: `join` is idempotent — when the id is already present the
transaction returns the roster unchanged, and applying the transaction
twice with the same id equals applying it once. -/
theorem joinTransaction_idempotent :
    ∀ (users : List UserId) (uid : UserId),
      (uid ∈ users → joinTransaction uid users = users) ∧
      joinTransaction uid (joinTransaction uid users) = joinTransaction uid users := by
  intro users uid
  constructor
  · intro hm
    simp [joinTransaction, hm]
  · by_cases hm : uid ∈ users <;> simp [joinTransaction, hm]

/-- Witness for C5 at concrete rosters. -/
theorem joinTransaction_idempotent_witness :
    joinTransaction "a" ["a", "b"] = ["a", "b"] ∧
    joinTransaction "c" (joinTransaction "c" ["a", "b"]) =
      joinTransaction "c" ["a", "b"] :=
  ⟨(joinTransaction_idempotent ["a", "b"] "a").1 (by decide),
   (joinTransaction_idempotent ["a", "b"] "c").2⟩

/-- Claim C8: the join transaction only ever appends — it returns the input
roster itself when the id already occurs, and otherwise the input roster
with the id appended as the last element, preserving all earlier entries
and their order. -/
theorem joinTransaction_append_only :
    ∀ (users : List UserId) (uid : UserId),
      (uid ∈ users → joinTransaction uid users = users) ∧
      (uid ∉ users → joinTransaction uid users = users ++ [uid]) := by
  intro users uid
  constructor
  · intro hm
    simp [joinTransaction, hm]
  · intro hm
    simp [joinTransaction, hm]

/-- Witness for C8 at concrete rosters, covering both branches. -/
theorem joinTransaction_append_only_witness :
    joinTransaction "a" ["a", "b"] = ["a", "b"] ∧
    joinTransaction "c" ["a", "b"] = ["a", "b", "c"] :=
  ⟨(joinTransaction_append_only ["a", "b"] "a").1 (by decide),
   (joinTransaction_append_only ["a", "b"] "c").2 (by decide)⟩

/-- Claim C10: the Join control is enabled exactly when the caller is not
in the roster and the roster is strictly below the kind's cap:
`isInSession` decides membership, `isFull` decides `length ≥ maxUsers`, and
the button is disabled iff either holds. -/
theorem joinControl_enabled_iff :
    ∀ (uid : UserId) (users : List UserId) (cap : Nat),
      (isInSession uid users = true ↔ uid ∈ users) ∧
      (isFull users cap = true ↔ users.length ≥ cap) ∧
      (joinButtonDisabled uid users cap = true ↔
        (uid ∈ users ∨ users.length ≥ cap)) ∧
      (joinButtonDisabled uid users cap = false ↔
        (uid ∉ users ∧ users.length < cap)) := by
  intro uid users cap
  refine ⟨?_, ?_, ?_, ?_⟩ <;>
    simp [isInSession, isFull, joinButtonDisabled, List.elem_iff, Nat.not_le,
      Nat.lt_iff_add_one_le]

/-- Witness for C10 at a concrete caller, roster and cap. -/
theorem joinControl_enabled_iff_witness :
    joinButtonDisabled "carol" ["a", "b"] 3 = false ↔
      (("carol" : UserId) ∉ (["a", "b"] : List UserId) ∧
        (["a", "b"] : List UserId).length < 3) :=
  (joinControl_enabled_iff "carol" ["a", "b"] 3).2.2.2

/-- A roster already holding `chatroom`'s configured cap of ten members. -/
def fullRoster : List UserId :=
  ["u1", "u2", "u3", "u4", "u5", "u6", "u7", "u8", "u9", "u10"]

/-- Claim C2, counterexample: with the roster at the `chatroom` cap of ten,
the join transaction for a fresh id does not fail and does not leave the
roster unchanged — it appends an eleventh member, because the transaction
function has no cap check at all. -/
theorem join_at_cap_still_appends :
    fullRoster.length ≥ chatroomData.maxUsers ∧
    joinTransaction "u11" fullRoster ≠ fullRoster ∧
    (joinTransaction "u11" fullRoster).length = chatroomData.maxUsers + 1 := by
  decide

/-- Claim C2, amended: the transaction only checks for duplicates; an
absent id is appended regardless of any cap, and the kind's member cap is
consulted only by the UI (`isFull` disabling the Join button). -/
theorem joinTransaction_has_no_cap_check :
    ∀ (users : List UserId) (uid : UserId) (cap : Nat),
      uid ∉ users →
      joinTransaction uid users = users ++ [uid] ∧
      (users.length ≥ cap →
        isFull users cap = true ∧ joinButtonDisabled uid users cap = true) := by
  intro users uid cap hm
  refine ⟨by simp [joinTransaction, List.elem_iff, hm], ?_⟩
  intro hlen
  constructor
  · simpa [isFull] using hlen
  · simp [joinButtonDisabled, isFull, hlen]

/-- Witness for the amended C2 at the concrete full roster. -/
theorem joinTransaction_has_no_cap_check_witness :
    joinTransaction "u11" fullRoster = fullRoster ++ ["u11"] ∧
    (fullRoster.length ≥ 10 →
      isFull fullRoster 10 = true ∧ joinButtonDisabled "u11" fullRoster 10 = true) :=
  joinTransaction_has_no_cap_check fullRoster "u11" 10 (by decide)

/-! ### Claims about session deletion (GameCard.deleteSession) -/

/-- A concrete session created by `alice` with `bob` already joined. -/
def sessionS1 : Session :=
  { id := "s1", type := "tictactoe", creator := "alice",
    users := ["alice", "bob"], timestamp := 0 }

/-- Claim C3, counterexample: a requester different from the creator
(`bob` vs `alice`) still removes the session — after `deleteSession` the
metadata entry is gone, so the operation neither fails nor leaves the
session unmodified. -/
theorem delete_by_noncreator_removes :
    ("bob" : UserId) ≠ sessionS1.creator ∧
    List.lookup "s1" (deleteSession "bob" "s1" [("s1", sessionS1)]) = none := by
  decide

/-- Claim C3, amended: `deleteSession` removes the session metadata
unconditionally — its result is independent of the requester and always
erases the entry — and the only creator gating is the UI disabling the
Delete button for non-creators. -/
theorem deleteSession_unconditional :
    (∀ (r r' : UserId) (sid : String) (store : MetaStore),
      deleteSession r sid store = deleteSession r' sid store) ∧
    (∀ (r : UserId) (sid : String) (store : MetaStore),
      List.lookup sid (deleteSession r sid store) = none) ∧
    (∀ (uid : UserId) (s : Session),
      deleteButtonDisabled uid s = true ↔ uid ≠ s.creator) := by
  refine ⟨fun _ _ _ _ => rfl, fun _ sid store => lookup_filter_not_key sid store, ?_⟩
  intro uid s
  simp [deleteButtonDisabled, isGameCreator]

/-- Witness for the amended C3 at the concrete session and requester. -/
theorem deleteSession_unconditional_witness :
    List.lookup "s1" (deleteSession "bob" "s1" [("s1", sessionS1)]) = none ∧
    (deleteButtonDisabled "bob" sessionS1 = true ↔ ("bob" : UserId) ≠ sessionS1.creator) :=
  ⟨deleteSession_unconditional.2.1 "bob" "s1" [("s1", sessionS1)],
   deleteSession_unconditional.2.2 "bob" sessionS1⟩

/-! ### Claims about the state-document write paths -/

/-- Overwriting an existing key in place does not disturb lookups of a
different key. -/
theorem lookup_map_overwrite (k q : String) (v : GValue) (h : q ≠ k) :
    ∀ doc : GameDoc,
      List.lookup q (doc.map (fun kv => if kv.1 == k then (k, v) else kv)) =
        List.lookup q doc := by
  intro doc
  induction doc with
  | nil => rfl
  | cons kv tl ih =>
    obtain ⟨k1, v1⟩ := kv
    by_cases hk : k1 = k
    · subst hk
      simp [List.lookup_cons, beq_false_of_ne h]
      simpa using ih
    · by_cases hq : q = k1
      · subst hq
        simp [List.lookup_cons, hk]
      · simp [List.lookup_cons, hk, beq_false_of_ne hq]
        simpa using ih

/-- Appending a key/value pair for a different key does not disturb
lookups. -/
theorem lookup_append_single_of_ne (q k : String) (v : GValue) (h : q ≠ k) :
    ∀ doc : GameDoc, List.lookup q (doc ++ [(k, v)]) = List.lookup q doc := by
  intro doc
  induction doc with
  | nil => simp [List.lookup_cons, beq_false_of_ne h]
  | cons kv tl ih =>
    obtain ⟨k1, v1⟩ := kv
    simp [List.lookup_cons, ih]

/-- `docSet` changes only the key it is given. -/
theorem lookup_docSet_of_ne (doc : GameDoc) (k q : String) (v : GValue)
    (h : q ≠ k) : List.lookup q (docSet doc k v) = List.lookup q doc := by
  unfold docSet
  by_cases ha : doc.any (fun kv => kv.1 == k) = true
  · rw [if_pos ha]
    exact lookup_map_overwrite k q v h doc
  · rw [if_neg ha]
    exact lookup_append_single_of_ne q k v h doc

/-- Claim C7, amended: `setGameData` (the engine's merge-style publish)
preserves every key the update does not mention, but the tic-tac-toe move
handler does not publish through it — it commits through the destructive
`set`, whose result replaces the stored document wholesale, independent of
the stored value. -/
theorem publish_merge_vs_replace :
    (∀ (upd doc : GameDoc) (q : String),
      (∀ kv ∈ upd, kv.1 ≠ q) →
      List.lookup q (setGameData doc upd) = List.lookup q doc) ∧
    (∀ (ctx : GameContext) (st : TTTLocalState) (i : Nat) (stored stored' : GameDoc),
      handleButtonClickCommit ctx st i stored = handleButtonClickCommit ctx st i stored') := by
  constructor
  · intro upd
    induction upd with
    | nil => intro doc q _; rfl
    | cons kv tl ih =>
      intro doc q h
      have hk : kv.1 ≠ q := h kv (by simp)
      have htl : ∀ p ∈ tl, p.1 ≠ q := fun p hp => h p (by simp [hp])
      calc List.lookup q (setGameData doc (kv :: tl))
          = List.lookup q (setGameData (docSet doc kv.1 kv.2) tl) := rfl
        _ = List.lookup q (docSet doc kv.1 kv.2) := ih (docSet doc kv.1 kv.2) q htl
        _ = List.lookup q doc := lookup_docSet_of_ne doc kv.1 q kv.2 (Ne.symm hk)
  · intro _ _ _ _ _
    rfl

/-- Witness for the amended C7: a merge of `cell_state` leaves an
unmentioned `score` key untouched. -/
theorem publish_merge_vs_replace_witness :
    List.lookup "score"
        (setGameData [("score", GValue.str "3"), ("cell_state", GValue.strList ["."])]
          [("cell_state", GValue.strList ["X"])]) =
      List.lookup "score" [("score", GValue.str "3"), ("cell_state", GValue.strList ["."])] :=
  publish_merge_vs_replace.1 [("cell_state", GValue.strList ["X"])]
    [("score", GValue.str "3"), ("cell_state", GValue.strList ["."])] "score"
    (by decide)

/-- `alice`, the creator, in a two-member session with `bob`. -/
def ctxAlice : GameContext :=
  { myUserId := "alice", creatorUserId := "alice",
    sessionUserIds := ["alice", "bob"] }

/-- `alice`'s local component state before any remote move arrived. -/
def staleAlice : TTTLocalState :=
  { cellState := List.replicate 9 ".", currentUser := some "alice" }

/-- A stored session document that another writer extended with a
`chat_log` key, alongside `bob`'s committed move in cell 4. -/
def storedWithChat : GameDoc :=
  [("cell_state", GValue.strList [".", ".", ".", ".", "O", ".", ".", ".", "."]),
   ("current_user", GValue.str "alice"),
   ("chat_log", GValue.str "hello from carol")]

/-- Claim C7, counterexample: the move handler's commit drops the
`chat_log` key another writer had set — its `set` replaces the whole
stored document, so a key not mentioned in the update does not keep its
previous value. -/
theorem moveCommit_drops_foreign_key :
    List.lookup "chat_log" storedWithChat = some (GValue.str "hello from carol") ∧
    List.lookup "chat_log" (handleButtonClickCommit ctxAlice staleAlice 0 storedWithChat) =
      none := by
  decide

/-! ### Claims about the turn-based move commit (TicTacToe) -/

/-- A stored session document in which it is `bob`'s turn and `bob`'s move
in cell 4 has already committed. -/
def storedAfterBob : GameDoc :=
  [("cell_state", GValue.strList [".", ".", ".", ".", "O", ".", ".", ".", "."]),
   ("current_user", GValue.str "bob")]

/-- Claim C1: the turn-based move commit is an unconditional destructive
write — its result is independent of the stored document, so even when the
stored state says it is no longer the caller's turn (holder `bob`, caller
`alice`) the commit replaces the document, erasing `bob`'s move in cell 4,
instead of failing. -/
theorem turn_move_commits_unconditionally :
    (∀ (ctx : GameContext) (st : TTTLocalState) (i : Nat) (stored stored' : GameDoc),
      handleButtonClickCommit ctx st i stored = handleButtonClickCommit ctx st i stored') ∧
    List.lookup "current_user" storedAfterBob = some (GValue.str "bob") ∧
    handleButtonClickCommit ctxAlice staleAlice 0 storedAfterBob =
      [("cell_state", GValue.strList ["X", ".", ".", ".", ".", ".", ".", ".", "."]),
       ("current_user", GValue.str "bob")] := by
  refine ⟨fun _ _ _ _ _ => rfl, by decide, by decide⟩

/-- A session whose roster holds only its creator `alice`. -/
def ctxSolo : GameContext :=
  { myUserId := "alice", creatorUserId := "alice", sessionUserIds := ["alice"] }

/-- `alice`'s local component state in the solo session. -/
def soloState : TTTLocalState :=
  { cellState := List.replicate 9 ".", currentUser := some "alice" }

/-- Claim C6: with fewer than two members, `getOtherUserId` signals failure
by returning `null` (and returns the unique other member in the two-member
context), but the move handler still commits a document whose
`current_user` is `null` instead of refusing the publish — after which it
is nobody's turn. -/
theorem solo_move_commits_null_holder :
    getOtherUserId ctxSolo = none ∧
    getOtherUserId ctxAlice = some "bob" ∧
    handleButtonClickCommit ctxSolo soloState 0 [] =
      [("cell_state", GValue.strList ["X", ".", ".", ".", ".", ".", ".", ".", "."]),
       ("current_user", GValue.nullV)] ∧
    (∀ uid : UserId,
      isMyTurn { myUserId := uid, creatorUserId := "alice", sessionUserIds := ["alice"] }
        { cellState := ["X", ".", ".", ".", ".", ".", ".", ".", "."], currentUser := none } =
        false) := by
  refine ⟨by decide, by decide, by decide, fun _ => rfl⟩

/-- Claim C9: the symbol the move handler writes into the clicked cell is
`"X"` exactly when the caller is the session creator and `"O"` otherwise,
and it is written over whatever the cell held, for every local state and
every turn holder; all other cells keep their contents. -/
theorem move_symbol_determined_by_creator :
    ∀ (ctx : GameContext) (st : TTTLocalState) (i : Nat), i < st.cellState.length →
      ∃ xs, committedCellState (handleButtonClick ctx st i) = some xs ∧
        xs.get? i = some (if ctx.myUserId = ctx.creatorUserId then "X" else "O") ∧
        ∀ j, j ≠ i → xs.get? j = st.cellState.get? j := by
  intro ctx st i h
  refine ⟨st.cellState.set i (if ctx.myUserId = ctx.creatorUserId then "X" else "O"),
    ?_, ?_, ?_⟩
  · by_cases hc : ctx.myUserId = ctx.creatorUserId <;>
      simp [handleButtonClick, committedCellState, hc, List.lookup_cons]
  · exact List.get?_set_eq_of_lt _ h
  · intro j hj
    exact List.get?_set_ne _ _ (Ne.symm hj)

/-- Witness for C9 at the concrete creator context and a fresh board. -/
theorem move_symbol_determined_by_creator_witness :
    0 < staleAlice.cellState.length ∧
    ∃ xs, committedCellState (handleButtonClick ctxAlice staleAlice 0) = some xs ∧
      xs.get? 0 = some (if ctxAlice.myUserId = ctxAlice.creatorUserId then "X" else "O") ∧
      ∀ j, j ≠ 0 → xs.get? j = staleAlice.cellState.get? j :=
  ⟨by decide, move_symbol_determined_by_creator ctxAlice staleAlice 0 (by decide)⟩

end MultiplayGame
